import Mathlib

/-!
Verification of the trading-bot core against its specification.

Shallow embedding of the core components of the repository:
* `src/grading/levels.py` — level ledger (`update_level`)
* `src/grading/council.py` — council ledger (`grade_council`)
* `src/utils/helpers.py` — verdict aggregator (`aggregate_verdicts_with_macro`)
* `src/core/trade_plan.py` — trade planner (`create_trade_plan`, `calculate_atr`,
  `calculate_lot_size`)
* `src/core/verification.py` — outcome verifier (`verify_trade_realtime`)

Python floats are idealised as `ℚ`; Python's built-in `round` (banker's
rounding, round half to even) is modelled exactly on rationals by
`roundHalfEvenZ` below.  Verdicts, directions and trade results are kept as
`String`s, matching the source, which compares string literals throughout.
-/

/-- Python's `round(x)` to an integer: round half to even, modelled on `ℚ`. -/
def roundHalfEvenZ (q : ℚ) : ℤ :=
  let n := ⌊q⌋
  let f := q - n
  if f < 1/2 then n
  else if 1/2 < f then n + 1
  else if n % 2 = 0 then n else n + 1

/-- Python's `round(x, 2)`. -/
def round2 (q : ℚ) : ℚ := (roundHalfEvenZ (q * 100) : ℚ) / 100

/-- Python's `round(x, 1)`. -/
def round1 (q : ℚ) : ℚ := (roundHalfEvenZ (q * 10) : ℚ) / 10

lemma roundHalfEvenZ_ge_floor (q : ℚ) : ⌊q⌋ ≤ roundHalfEvenZ q := by
  unfold roundHalfEvenZ
  dsimp only
  split
  · exact le_refl _
  · split
    · exact le_of_lt (lt_add_one _)
    · split
      · exact le_refl _
      · exact le_of_lt (lt_add_one _)

lemma roundHalfEvenZ_pos (q : ℚ) (h : 1/2 < q) : 1 ≤ roundHalfEvenZ q := by
  have hq : (0 : ℚ) < q := lt_trans (by norm_num) h
  have hfl : (0 : ℤ) ≤ ⌊q⌋ := Int.floor_nonneg.mpr (le_of_lt hq)
  rcases le_or_lt 1 ⌊q⌋ with h1 | h1
  · exact le_trans h1 (roundHalfEvenZ_ge_floor q)
  · have h0 : ⌊q⌋ = 0 := by omega
    have hfrac : 1/2 < q - (⌊q⌋ : ℚ) := by rw [h0]; push_cast; linarith
    unfold roundHalfEvenZ
    dsimp only
    rw [if_neg (not_lt.mpr (le_of_lt hfrac)), if_pos hfrac]
    omega

lemma roundHalfEvenZ_intCast (n : ℤ) : roundHalfEvenZ (n : ℚ) = n := by
  unfold roundHalfEvenZ
  simp [Int.floor_intCast]

lemma round2_pos (q : ℚ) (h : 1/200 < q) : 0 < round2 q := by
  unfold round2
  have h1 : (1:ℚ)/2 < q * 100 := by linarith
  have := roundHalfEvenZ_pos (q * 100) h1
  have hc : (1 : ℚ) ≤ (roundHalfEvenZ (q * 100) : ℚ) := by exact_mod_cast this
  positivity

lemma round2_intDiv100 (m : ℤ) : round2 ((m : ℚ) / 100) = (m : ℚ) / 100 := by
  unfold round2
  have : ((m : ℚ) / 100) * 100 = (m : ℚ) := by field_simp
  rw [this, roundHalfEvenZ_intCast]

/-! ## Configuration (`src/config/config.example.py`)

Only the fields read by the embedded core functions are modelled.  The
default values are those shipped in `config.example.py`. -/

structure Config where
  PIP_SIZE : ℚ
  PIP_VALUE_PER_LOT : ℚ
  BROKER_MIN_LOT : ℚ
  BROKER_LOT_STEP : ℚ
  BROKER_MAX_LOT : ℚ
  RISK_MODE : String
  RISK_PER_TRADE : ℚ
  RR_TARGET : ℚ
  ATR_PERIOD : ℕ
  ATR_MULTIPLIER : ℚ
  VERIFICATION_WINDOW_BARS : ℕ
  ASSUMED_SPREAD : ℚ
  INITIAL_BALANCE : ℚ
deriving DecidableEq

def defaultConfig : Config :=
  { PIP_SIZE := 1/100
    PIP_VALUE_PER_LOT := 1
    BROKER_MIN_LOT := 1/100
    BROKER_LOT_STEP := 1/100
    BROKER_MAX_LOT := 50
    RISK_MODE := "SAFER"
    RISK_PER_TRADE := 1/100
    RR_TARGET := 2
    ATR_PERIOD := 14
    ATR_MULTIPLIER := 3/2
    VERIFICATION_WINDOW_BARS := 120
    ASSUMED_SPREAD := 1/20
    INITIAL_BALANCE := 20 }

/-! ## Level ledger (`src/grading/levels.py`)

`update_level(pnl, result)` reads the latest row, computes the next one and
appends it.  The embedding takes the current row explicitly and returns the
appended row (level, balance and target as persisted, i.e. balance and
target rounded to 2 decimals). -/

structure LevelState where
  level : ℤ
  balance : ℚ
  target : ℚ
deriving DecidableEq

def update_level (cfg : Config) (pnl : ℚ) (result : String)
    (current : LevelState) : LevelState :=
  let new_balance := current.balance + pnl
  if cfg.RISK_MODE = "LEVEL_STRICT" then
    -- Challenge mode: +1 level on win, -1 on loss; pnl is overwritten
    let p : ℤ × ℚ :=
      if result = "WIN" then (current.level + 1, current.balance * (6/5))
      else (max 1 (current.level - 1), current.balance / (6/5))
    let new_target := p.2 * (6/5)
    ⟨p.1, round2 p.2, round2 new_target⟩
  else  -- SAFER mode, milestone-based
    if new_balance ≥ current.target then
      ⟨current.level + 1, round2 new_balance, round2 (new_balance * (6/5))⟩
    else if new_balance ≤ current.balance / (6/5) then
      ⟨max 1 (current.level - 1), round2 new_balance, round2 (new_balance * (6/5))⟩
    else
      ⟨current.level, round2 new_balance, round2 current.target⟩

/-! ## Council ledger (`src/grading/council.py`)

One row per member, exactly the columns of the `council` table.  The table
state is a total map from member name to row (members not in the table are
irrelevant: SQL `UPDATE ... WHERE member = ?` on a missing member is a
no-op, and the claims only touch initialised members). -/

structure CouncilRow where
  correct : ℕ
  incorrect : ℕ
  neutral : ℕ
  total_r : ℚ
  trade_count : ℕ
  accuracy : ℚ
  expectancy : ℚ
  weight : ℚ
deriving DecidableEq

/-- The column defaults of the `council` table (weight defaults to 1.0). -/
def initRow : CouncilRow := ⟨0, 0, 0, 0, 0, 0, 0, 1⟩

def CouncilState : Type := String → CouncilRow

/-- One iteration of the grading loop of `grade_council`, applied to the
pair `(module, verdict)`. -/
def gradeOne (trade_direction trade_result : String) (rr_realized : ℚ)
    (st : CouncilState) (mv : String × String) : CouncilState :=
  fun m =>
    if m = mv.1 then
      let row := st m
      if mv.2 = "NEUTRAL" then
        { row with neutral := row.neutral + 1 }
      else if ¬ (mv.2 = trade_direction) then
        row  -- module voted opposite: skip grading
      else if trade_result = "WIN" then
        { row with correct := row.correct + 1,
                   total_r := row.total_r + rr_realized,
                   trade_count := row.trade_count + 1 }
      else if trade_result = "LOSS" then
        { row with incorrect := row.incorrect + 1,
                   total_r := row.total_r + rr_realized,
                   trade_count := row.trade_count + 1 }
      else
        row  -- EXPIRED and others do not count toward correct/incorrect
    else st m

/-- The recomputation loop at the end of `grade_council`: accuracy and
expectancy recomputed from the raw counters, stored rounded
(`round(accuracy, 1)`, `round(expectancy, 2)`). -/
def recomputeRow (row : CouncilRow) : CouncilRow :=
  let total_graded := row.correct + row.incorrect
  let accuracy : ℚ :=
    if 0 < total_graded then (row.correct : ℚ) / (total_graded : ℚ) * 100 else 0
  let expectancy : ℚ :=
    if 0 < row.trade_count then row.total_r / (row.trade_count : ℚ) else 0
  { row with accuracy := round1 accuracy, expectancy := round2 expectancy }

def grade_council (module_verdicts : List (String × String))
    (trade_direction trade_result : String) (rr_realized : ℚ)
    (st : CouncilState) : CouncilState :=
  let st1 := module_verdicts.foldl (gradeOne trade_direction trade_result rr_realized) st
  fun m => recomputeRow (st1 m)

/-! ## Verdict aggregator (`src/utils/helpers.py`, `aggregate_verdicts_with_macro`)

The weight table, thresholds and confidence parameters come from the config
module; they are passed here as an explicit `AggCfg`.  `aggScan` is the
accumulation loop over the verdict dict (weighted score plus the
`buy_modules` / `sell_modules` lists, in iteration order). -/

structure ConfidenceCfg where
  base : ℤ
  full_weight : ℤ
  half_weight : ℤ
  macro_align : ℤ
  macro_contra : ℤ
  cap : ℤ
deriving DecidableEq

structure AggCfg where
  weights : List (String × ℚ)
  buy_threshold : ℚ
  sell_threshold : ℚ
  conf : ConfidenceCfg
deriving DecidableEq

/-- `WEIGHTS.get(module, 0.5)`. -/
def weightOf (ws : List (String × ℚ)) (m : String) : ℚ :=
  (ws.lookup m).getD (1/2)

/-- `score_map = {"BUY": 1, "SELL": -1, "NEUTRAL": 0}`.  The source raises
`KeyError` on any other string; theorems about the aggregator therefore
restrict verdicts to these three values. -/
def score_map (v : String) : ℤ :=
  if v = "BUY" then 1 else if v = "SELL" then -1 else 0

/-- The `WEIGHTS` dict from `config.example.py`. -/
def defaultWeights : List (String × ℚ) :=
  [("trend", 1), ("candlestick", 1), ("sr", 1), ("volume", 1),
   ("rsi", 1/2), ("macd", 1/2), ("bollinger", 1/2)]

/-- The `CONFIDENCE` dict from `config.example.py`. -/
def defaultAggCfg : AggCfg :=
  { weights := defaultWeights
    buy_threshold := 2
    sell_threshold := -2
    conf := ⟨50, 10, 5, 10, -10, 90⟩ }

/-- The accumulation loop of `aggregate_verdicts_with_macro`:
`(total_score, buy_modules, sell_modules)`. -/
def aggScan (ws : List (String × ℚ)) (verdicts : List (String × String)) :
    ℚ × List String × List String :=
  verdicts.foldl
    (fun acc mv =>
      let weight := weightOf ws mv.1
      let s := acc.1 + (score_map mv.2 : ℚ) * weight
      if mv.2 = "BUY" then (s, acc.2.1 ++ [mv.1], acc.2.2)
      else if mv.2 = "SELL" then (s, acc.2.1, acc.2.2 ++ [mv.1])
      else (s, acc.2.1, acc.2.2))
    (0, [], [])

structure AggResult where
  final_verdict : String
  score : ℚ
  confidence : ℤ
  macro_adjusted : Bool
deriving DecidableEq

def aggregate_verdicts_with_macro_gate (cfg : AggCfg)
    (verdicts : List (String × String)) (macro_verdict : String) : AggResult :=
  let acc := aggScan cfg.weights verdicts
  let total_score := acc.1
  let buy_modules := acc.2.1
  let sell_modules := acc.2.2
  let technical_verdict :=
    if total_score ≥ cfg.buy_threshold then "BUY"
    else if total_score ≤ cfg.sell_threshold then "SELL"
    else "NEUTRAL"
  let gate : String × Bool :=
    if technical_verdict = "BUY" ∧ macro_verdict = "SELL" then ("NEUTRAL", true)
    else if technical_verdict = "SELL" ∧ macro_verdict = "BUY" then ("NEUTRAL", true)
    else (technical_verdict, false)
  let final_verdict := gate.1
  let aligned_count : ℕ :=
    if technical_verdict = "BUY" then buy_modules.length else sell_modules.length
  let confidence := cfg.conf.base + (aligned_count : ℤ) * cfg.conf.half_weight
  let confidence :=
    if ¬ (final_verdict = "NEUTRAL") then
      if macro_verdict = final_verdict then confidence + cfg.conf.macro_align
      else if ¬ (macro_verdict = "NEUTRAL") then confidence + cfg.conf.macro_contra
      else confidence
    else confidence
  let confidence := min confidence cfg.conf.cap
  let confidence := max confidence 30  -- floor at 30%
  ⟨final_verdict, round1 total_score, confidence, gate.2⟩

/-! ## Price bars

One OHLC observation.  `time` is minutes since an arbitrary epoch, UTC
(the source normalises all timestamps to UTC before comparing).  The
`open` and `volume` columns are never read by the embedded core
functions and are omitted. -/

structure Bar where
  time : ℚ
  high : ℚ
  low : ℚ
  close : ℚ
deriving DecidableEq

/-! ## Trade planner (`src/core/trade_plan.py`) -/

/-- The per-row true range of `calculate_atr`: row 0 has `NaN` shifted
close, and pandas' rowwise `max` skips `NaN`, leaving `high - low`. -/
def trueRanges : List Bar → List ℚ
  | [] => []
  | b0 :: rest =>
    (b0.high - b0.low) ::
      (List.zip rest (b0 :: rest)).map
        (fun p =>
          max (p.1.high - p.1.low)
            (max |p.1.high - p.2.close| |p.1.low - p.2.close|))

/-- `calculate_atr(df, period)`: mean of the trailing `period` true ranges.
With fewer rows than `period` the pandas rolling mean is `NaN` (which the
caller then feeds into `round`, raising — no plan is ever produced), and
with an empty frame the source returns `None`; both are modelled as
`none`. -/
def calculate_atr (bars : List Bar) (period : ℕ) : Option ℚ :=
  let trs := trueRanges bars
  if 0 < period ∧ period ≤ trs.length then
    some ((trs.drop (trs.length - period)).sum / (period : ℚ))
  else none

def calculate_lot_size (cfg : Config) (risk_amount : ℚ) (stop_pips : ℤ) : ℚ :=
  if stop_pips ≤ 0 then cfg.BROKER_MIN_LOT
  else
    let lots := risk_amount / ((stop_pips : ℚ) * cfg.PIP_VALUE_PER_LOT)
    let lots := (roundHalfEvenZ (lots / cfg.BROKER_LOT_STEP) : ℚ) * cfg.BROKER_LOT_STEP
    let lots := max cfg.BROKER_MIN_LOT (min lots cfg.BROKER_MAX_LOT)
    round2 lots

structure TradePlan where
  direction : String
  entry : ℚ
  sl : ℚ
  tp : ℚ
  lots : ℚ
  stop_pips : ℤ
  tp_pips : ℤ
  rr : ℚ
  risk_amount : ℚ
  potential_loss : ℚ
  potential_gain : ℚ
  atr : ℚ
deriving DecidableEq

def create_trade_plan (cfg : Config) (bars : List Bar) (direction : String)
    (balance : ℚ) : Option TradePlan :=
  match bars.getLast? with
  | none => none  -- df is None or empty
  | some lastBar =>
    let entry_price := round2 lastBar.close
    match calculate_atr bars cfg.ATR_PERIOD with
    | none => none
    | some atr =>
      if atr ≤ 0 then none
      else
        let stop_distance := cfg.ATR_MULTIPLIER * atr
        let stop_pips := roundHalfEvenZ (stop_distance / cfg.PIP_SIZE)
        let tp_pips := roundHalfEvenZ (cfg.RR_TARGET * (stop_pips : ℚ))
        let prices : ℚ × ℚ :=
          if direction = "BUY" then
            (round2 (entry_price - (stop_pips : ℚ) * cfg.PIP_SIZE) - cfg.ASSUMED_SPREAD,
             round2 (entry_price + (tp_pips : ℚ) * cfg.PIP_SIZE))
          else  -- SELL
            (round2 (entry_price + (stop_pips : ℚ) * cfg.PIP_SIZE) + cfg.ASSUMED_SPREAD,
             round2 (entry_price - (tp_pips : ℚ) * cfg.PIP_SIZE))
        let risk_amount :=
          if cfg.RISK_MODE = "LEVEL_STRICT" then (20/100) * balance
          else cfg.RISK_PER_TRADE * balance
        let lots := calculate_lot_size cfg risk_amount stop_pips
        let potential_loss := (stop_pips : ℚ) * cfg.PIP_VALUE_PER_LOT * lots
        let potential_gain := (tp_pips : ℚ) * cfg.PIP_VALUE_PER_LOT * lots
        some
          { direction := direction
            entry := entry_price
            sl := prices.1
            tp := prices.2
            lots := lots
            stop_pips := stop_pips
            tp_pips := tp_pips
            rr := cfg.RR_TARGET
            risk_amount := round2 risk_amount
            potential_loss := round2 potential_loss
            potential_gain := round2 potential_gain
            atr := round2 atr }

/-! ## Outcome verifier (`src/core/verification.py`, `verify_trade_realtime`) -/

/-- Result of the `get_ohlc_data` call: either a (possibly empty) frame, or
an exception that the verifier's `except` branch turns into `ERROR`.  A
`None` frame and an empty frame take the same `PENDING` path and are both
modelled by `ok []`. -/
inductive BarFetch where
  | ok : List Bar → BarFetch
  | fail : String → BarFetch
deriving DecidableEq

structure VerifyOutcome where
  result : String
  exit_price : Option ℚ
  bars : ℕ
  rr : ℚ
  error : Option String
deriving DecidableEq

/-- Step 6 of `verify_trade_realtime`: scan the post-entry candles in
order; `n` is the number of candles already scanned.  The source's
ambiguous both-levels-hit branch and its plain stop-hit branch return the
same `LOSS` outcome; both branches are kept to mirror the code.  The `2.0`
on `WIN` is a literal in the source, not `RR_TARGET`. -/
def scanBars (direction : String) (sl_price tp_price : ℚ) :
    List Bar → ℕ → VerifyOutcome
  | [], n => ⟨"PENDING", none, n, 0, none⟩
  | candle :: rest, n =>
    let bars_elapsed := n + 1
    if direction = "BUY" then
      if candle.low ≤ sl_price then
        if candle.high ≥ tp_price then
          ⟨"LOSS", some sl_price, bars_elapsed, -1, none⟩  -- both hit: assume SL first
        else
          ⟨"LOSS", some sl_price, bars_elapsed, -1, none⟩
      else if candle.high ≥ tp_price then
        ⟨"WIN", some tp_price, bars_elapsed, 2, none⟩
      else scanBars direction sl_price tp_price rest bars_elapsed
    else  -- SELL
      if candle.high ≥ sl_price then
        if candle.low ≤ tp_price then
          ⟨"LOSS", some sl_price, bars_elapsed, -1, none⟩  -- both hit: assume SL first
        else
          ⟨"LOSS", some sl_price, bars_elapsed, -1, none⟩
      else if candle.low ≤ tp_price then
        ⟨"WIN", some tp_price, bars_elapsed, 2, none⟩
      else scanBars direction sl_price tp_price rest bars_elapsed

/-- `verify_trade_realtime`.  `entry_time` and `now` are UTC timestamps in
minutes, so `now - entry_time` is the source's
`(now - entry_time_utc).total_seconds() / 60`.  The expiry check runs
before the data fetch, so `fetch` is untouched on the `EXPIRED` path. -/
def verify_trade_realtime (cfg : Config) (entry_time now : ℚ)
    (direction : String) (sl_price tp_price : ℚ) (fetch : BarFetch) :
    VerifyOutcome :=
  let time_since_entry := now - entry_time
  if time_since_entry > (cfg.VERIFICATION_WINDOW_BARS : ℚ) then
    ⟨"EXPIRED", none, cfg.VERIFICATION_WINDOW_BARS, 0, none⟩
  else
    match fetch with
    | .fail msg => ⟨"ERROR", none, 0, 0, some msg⟩
    | .ok df =>
      if df.isEmpty then ⟨"PENDING", none, 0, 0, none⟩
      else
        let df_after_entry := df.filter (fun b => decide (entry_time < b.time))
        if df_after_entry.isEmpty then ⟨"PENDING", none, 0, 0, none⟩
        else scanBars direction sl_price tp_price df_after_entry 0

/-! ## Concrete instances used by witnesses and counterexamples -/

/-- `config.example.py` with `RISK_MODE` switched to the strict challenge
mode. -/
def strictConfig : Config := { defaultConfig with RISK_MODE := "LEVEL_STRICT" }

/-- `config.example.py` with a reward multiple other than the default 2.0. -/
def rr3Config : Config := { defaultConfig with RR_TARGET := 3 }

/-- Fourteen one-minute bars with a tiny but positive range (ATR = 0.001),
well below one pip. -/
def tinyRangeBars : List Bar :=
  [⟨0, 2000 + 1/1000, 2000, 2000⟩, ⟨1, 2000 + 1/1000, 2000, 2000⟩,
   ⟨2, 2000 + 1/1000, 2000, 2000⟩, ⟨3, 2000 + 1/1000, 2000, 2000⟩,
   ⟨4, 2000 + 1/1000, 2000, 2000⟩, ⟨5, 2000 + 1/1000, 2000, 2000⟩,
   ⟨6, 2000 + 1/1000, 2000, 2000⟩, ⟨7, 2000 + 1/1000, 2000, 2000⟩,
   ⟨8, 2000 + 1/1000, 2000, 2000⟩, ⟨9, 2000 + 1/1000, 2000, 2000⟩,
   ⟨10, 2000 + 1/1000, 2000, 2000⟩, ⟨11, 2000 + 1/1000, 2000, 2000⟩,
   ⟨12, 2000 + 1/1000, 2000, 2000⟩, ⟨13, 2000 + 1/1000, 2000, 2000⟩]

/-- Fourteen one-minute bars with a 2.00 range (ATR = 2.0, 300 pips of
stop distance after the 1.5 multiplier). -/
def normalBars : List Bar :=
  [⟨0, 2651, 2649, 2650⟩, ⟨1, 2651, 2649, 2650⟩, ⟨2, 2651, 2649, 2650⟩,
   ⟨3, 2651, 2649, 2650⟩, ⟨4, 2651, 2649, 2650⟩, ⟨5, 2651, 2649, 2650⟩,
   ⟨6, 2651, 2649, 2650⟩, ⟨7, 2651, 2649, 2650⟩, ⟨8, 2651, 2649, 2650⟩,
   ⟨9, 2651, 2649, 2650⟩, ⟨10, 2651, 2649, 2650⟩, ⟨11, 2651, 2649, 2650⟩,
   ⟨12, 2651, 2649, 2650⟩, ⟨13, 2651, 2649, 2650⟩]

/-- The stop condition checked by the scan loop: BUY `low ≤ sl`,
SELL `high ≥ sl`. -/
def stop_hit (direction : String) (sl_price : ℚ) (b : Bar) : Bool :=
  if direction = "BUY" then b.low ≤ sl_price else b.high ≥ sl_price

/-- The target condition checked by the scan loop: BUY `high ≥ tp`,
SELL `low ≤ tp`. -/
def target_hit (direction : String) (tp_price : ℚ) (b : Bar) : Bool :=
  if direction = "BUY" then b.high ≥ tp_price else b.low ≤ tp_price

/-- A council row whose stored accuracy and expectancy agree with the
recomputation from its own raw counters (every row written by
`grade_council` is of this shape, as is the initial row). -/
def rowConsistent (row : CouncilRow) : Prop :=
  row.accuracy = (recomputeRow row).accuracy ∧
  row.expectancy = (recomputeRow row).expectancy

/-- A sequence of single-module gradings: each element of `calls` is a
`(trade_result, rr_realized)` pair, graded with the module's verdict equal
to the trade direction, starting from a fresh council table. -/
def gradeSequence (m dir : String) (calls : List (String × ℚ)) : CouncilState :=
  calls.foldl (fun st c => grade_council [(m, dir)] dir c.1 c.2 st) (fun _ => initRow)

/-! # Theorems -/

/-- C7: if the elapsed wall-clock time since entry (in minutes, UTC)
exceeds the configured verification window, the verifier returns EXPIRED
with rr 0, before and independently of any price data (the fetch result is
arbitrary, including a fetch failure). -/
theorem C7_expired_regardless_of_data (cfg : Config) (entry_time now : ℚ)
    (direction : String) (sl_price tp_price : ℚ) (fetch : BarFetch)
    (h : (cfg.VERIFICATION_WINDOW_BARS : ℚ) < now - entry_time) :
    verify_trade_realtime cfg entry_time now direction sl_price tp_price fetch =
      ⟨"EXPIRED", none, cfg.VERIFICATION_WINDOW_BARS, 0, none⟩ := by
  unfold verify_trade_realtime
  dsimp only
  rw [if_pos h]

theorem C7_expired_regardless_of_data_witness :
    verify_trade_realtime defaultConfig 0 121 "BUY" 2645 2660 (.fail "boom") =
      ⟨"EXPIRED", none, 120, 0, none⟩ :=
  C7_expired_regardless_of_data defaultConfig 0 121 "BUY" 2645 2660 (.fail "boom")
    (by norm_num [defaultConfig])

/-- C8: in STRICT (`LEVEL_STRICT`) mode the level update is independent of
the `pnl` argument, and the new state is: WIN → level+1, balance·1.2,
target = (balance·1.2)·1.2; LOSS → max(1, level−1), balance/1.2,
target = (balance/1.2)·1.2 (balance and target as persisted, rounded to 2
decimals). -/
theorem C8_strict_mode_ignores_pnl (cfg : Config) (st : LevelState)
    (pnl1 pnl2 : ℚ) (result : String)
    (hmode : cfg.RISK_MODE = "LEVEL_STRICT")
    (hres : result = "WIN" ∨ result = "LOSS") :
    update_level cfg pnl1 result st = update_level cfg pnl2 result st ∧
    (result = "WIN" →
      update_level cfg pnl1 result st =
        ⟨st.level + 1, round2 (st.balance * (6/5)),
         round2 (st.balance * (6/5) * (6/5))⟩) ∧
    (result = "LOSS" →
      update_level cfg pnl1 result st =
        ⟨max 1 (st.level - 1), round2 (st.balance / (6/5)),
         round2 (st.balance / (6/5) * (6/5))⟩) := by
  have key : ∀ pnl : ℚ, update_level cfg pnl result st =
      if result = "WIN" then
        (⟨st.level + 1, round2 (st.balance * (6/5)),
          round2 (st.balance * (6/5) * (6/5))⟩ : LevelState)
      else
        ⟨max 1 (st.level - 1), round2 (st.balance / (6/5)),
         round2 (st.balance / (6/5) * (6/5))⟩ := by
    intro pnl
    unfold update_level
    dsimp only
    rw [if_pos hmode]
    by_cases hw : result = "WIN" <;> simp [hw]
  refine ⟨by rw [key pnl1, key pnl2], ?_, ?_⟩
  · intro hw
    rw [key pnl1, if_pos hw]
  · intro hl
    have hw : ¬ result = "WIN" := by rw [hl]; decide
    rw [key pnl1, if_neg hw]

theorem C8_strict_mode_ignores_pnl_witness :
    update_level strictConfig 5 "WIN" ⟨1, 20, 24⟩ =
      update_level strictConfig (-3) "WIN" ⟨1, 20, 24⟩ ∧
    ("WIN" = "WIN" →
      update_level strictConfig 5 "WIN" ⟨1, 20, 24⟩ =
        ⟨1 + 1, round2 (20 * (6/5)), round2 (20 * (6/5) * (6/5))⟩) ∧
    ("WIN" = "LOSS" →
      update_level strictConfig 5 "WIN" ⟨1, 20, 24⟩ =
        ⟨max 1 (1 - 1), round2 (20 / (6/5)), round2 (20 / (6/5) * (6/5))⟩) :=
  C8_strict_mode_ignores_pnl strictConfig ⟨1, 20, 24⟩ 5 (-3) "WIN" rfl (Or.inl rfl)

/-- C5 counterexample: in MILESTONE (SAFER) mode a sufficiently negative
pnl drives the persisted balance (and target) below zero — from the state
(level 1, balance 20, target 24), `update_level(-25, "LOSS")` stores
balance −5 and target −6, refuting `balance > 0`. -/
theorem C5_counterexample :
    update_level defaultConfig (-25) "LOSS" ⟨1, 20, 24⟩ = ⟨1, -5, -6⟩ ∧
    ¬ (0 < (update_level defaultConfig (-25) "LOSS" ⟨1, 20, 24⟩).balance) := by
  have h : update_level defaultConfig (-25) "LOSS" ⟨1, 20, 24⟩ = ⟨1, -5, -6⟩ := by
    unfold update_level
    dsimp only
    rw [if_neg (by decide : ¬ defaultConfig.RISK_MODE = "LEVEL_STRICT"),
      if_neg (by norm_num : ¬ ((20 : ℚ) + -25 ≥ 24)),
      if_pos (by norm_num : ((20 : ℚ) + -25 ≤ 20 / (6/5)))]
    norm_num [round2, roundHalfEvenZ, Int.fract]
  exact ⟨h, by rw [h]; norm_num⟩

/-- C5 (amended): after an update the level is ≥ 1 whenever the previous
level was ≥ 1; the persisted balance and target are > 0 provided that in
STRICT mode the previous balance was ≥ 0.01, and in MILESTONE mode both
`balance + pnl ≥ 0.01` and the previous target was ≥ 0.01.  (As stated the
claim fails: MILESTONE mode sets balance = balance + pnl, which is ≤ 0 for
a sufficiently negative pnl.) -/
theorem C5_amended_level_invariant (cfg : Config) (pnl : ℚ) (result : String)
    (st : LevelState) (hlvl : 1 ≤ st.level)
    (hstrict : cfg.RISK_MODE = "LEVEL_STRICT" → 1/100 ≤ st.balance)
    (hmile : ¬ cfg.RISK_MODE = "LEVEL_STRICT" →
      1/100 ≤ st.balance + pnl ∧ 1/100 ≤ st.target) :
    1 ≤ (update_level cfg pnl result st).level ∧
    0 < (update_level cfg pnl result st).balance ∧
    0 < (update_level cfg pnl result st).target := by
  unfold update_level
  dsimp only
  by_cases hm : cfg.RISK_MODE = "LEVEL_STRICT"
  · rw [if_pos hm]
    have hb := hstrict hm
    by_cases hw : result = "WIN"
    · rw [if_pos hw]
      dsimp only
      refine ⟨by omega, round2_pos _ (by linarith), round2_pos _ (by linarith)⟩
    · rw [if_neg hw]
      dsimp only
      have hdiv : st.balance / (6/5) = st.balance * (5/6) := by ring
      refine ⟨le_max_left _ _, ?_, ?_⟩
      · exact round2_pos _ (by rw [hdiv]; linarith)
      · exact round2_pos _ (by rw [hdiv]; linarith)
  · rw [if_neg hm]
    obtain ⟨hb, ht⟩ := hmile hm
    by_cases h1 : st.balance + pnl ≥ st.target
    · rw [if_pos h1]
      dsimp only
      exact ⟨by omega, round2_pos _ (by linarith), round2_pos _ (by linarith)⟩
    · rw [if_neg h1]
      by_cases h2 : st.balance + pnl ≤ st.balance / (6/5)
      · rw [if_pos h2]
        dsimp only
        exact ⟨le_max_left _ _, round2_pos _ (by linarith), round2_pos _ (by linarith)⟩
      · rw [if_neg h2]
        dsimp only
        exact ⟨hlvl, round2_pos _ (by linarith), round2_pos _ (by linarith)⟩

theorem C5_amended_level_invariant_witness :
    1 ≤ (update_level defaultConfig 1 "WIN" ⟨1, 20, 24⟩).level ∧
    0 < (update_level defaultConfig 1 "WIN" ⟨1, 20, 24⟩).balance ∧
    0 < (update_level defaultConfig 1 "WIN" ⟨1, 20, 24⟩).target :=
  C5_amended_level_invariant defaultConfig 1 "WIN" ⟨1, 20, 24⟩ (by norm_num)
    (fun h => absurd h (by decide))
    (fun _ => by norm_num)

/-! Helper lemmas about the candle scan loop. -/

lemma scanBars_cons_stop (direction : String) (sl_price tp_price : ℚ) (b : Bar)
    (rest : List Bar) (n : ℕ) (hb : stop_hit direction sl_price b = true) :
    scanBars direction sl_price tp_price (b :: rest) n =
      ⟨"LOSS", some sl_price, n + 1, -1, none⟩ := by
  unfold stop_hit at hb
  simp only [scanBars]
  by_cases hd : direction = "BUY"
  · rw [if_pos hd] at hb ⊢
    rw [if_pos (of_decide_eq_true hb), ite_self]
  · rw [if_neg hd] at hb ⊢
    rw [if_pos (of_decide_eq_true hb), ite_self]

lemma scanBars_cons_skip (direction : String) (sl_price tp_price : ℚ) (b : Bar)
    (rest : List Bar) (n : ℕ) (hs : stop_hit direction sl_price b = false)
    (ht : target_hit direction tp_price b = false) :
    scanBars direction sl_price tp_price (b :: rest) n =
      scanBars direction sl_price tp_price rest (n + 1) := by
  unfold stop_hit at hs
  unfold target_hit at ht
  simp only [scanBars]
  by_cases hd : direction = "BUY"
  · rw [if_pos hd] at hs ht ⊢
    rw [if_neg (of_decide_eq_false hs), if_neg (of_decide_eq_false ht)]
  · rw [if_neg hd] at hs ht ⊢
    rw [if_neg (of_decide_eq_false hs), if_neg (of_decide_eq_false ht)]

lemma scanBars_first_stop (direction : String) (sl_price tp_price : ℚ)
    (pre : List Bar) (b : Bar) (rest : List Bar) (n : ℕ)
    (hpre : ∀ p ∈ pre, stop_hit direction sl_price p = false ∧
      target_hit direction tp_price p = false)
    (hb : stop_hit direction sl_price b = true) :
    scanBars direction sl_price tp_price (pre ++ b :: rest) n =
      ⟨"LOSS", some sl_price, n + pre.length + 1, -1, none⟩ := by
  induction pre generalizing n with
  | nil =>
    rw [List.nil_append, scanBars_cons_stop direction sl_price tp_price b rest n hb]
    simp
  | cons p ps ih =>
    obtain ⟨hs, ht⟩ := hpre p (List.mem_cons_self p ps)
    rw [List.cons_append,
      scanBars_cons_skip direction sl_price tp_price p (ps ++ b :: rest) n hs ht,
      ih (n + 1) (fun q hq => hpre q (List.mem_cons_of_mem p hq))]
    simp [List.length_cons]
    omega

/-- The post-entry filter keeps every bar when all bars are after entry. -/
lemma filter_after_entry (entry_time : ℚ) (l : List Bar)
    (h : ∀ x ∈ l, entry_time < x.time) :
    l.filter (fun b => decide (entry_time < b.time)) = l :=
  List.filter_eq_self.mpr (fun x hx => decide_eq_true (h x hx))

/-- C2: if the first post-entry bar that satisfies either level condition
satisfies both the stop and the target condition, the verifier returns
LOSS with exit price equal to the stop price (conservative same-bar
tie-break), for either direction. -/
theorem C2_same_bar_tie_breaks_to_loss (cfg : Config) (entry_time now : ℚ)
    (direction : String) (sl_price tp_price : ℚ) (pre : List Bar) (b : Bar)
    (rest : List Bar)
    (hwin : now - entry_time ≤ (cfg.VERIFICATION_WINDOW_BARS : ℚ))
    (htimes : ∀ x ∈ pre ++ b :: rest, entry_time < x.time)
    (hpre : ∀ p ∈ pre, stop_hit direction sl_price p = false ∧
      target_hit direction tp_price p = false)
    (hs : stop_hit direction sl_price b = true)
    (ht : target_hit direction tp_price b = true) :
    verify_trade_realtime cfg entry_time now direction sl_price tp_price
        (.ok (pre ++ b :: rest)) =
      ⟨"LOSS", some sl_price, pre.length + 1, -1, none⟩ := by
  unfold verify_trade_realtime
  dsimp only
  rw [if_neg (not_lt.mpr hwin)]
  rw [if_neg (by simp), filter_after_entry entry_time _ htimes, if_neg (by simp),
    scanBars_first_stop direction sl_price tp_price pre b rest 0 hpre hs]
  simp

/-- C4: if bar `k` (1-based, here `k = pre.length + 1`) is the first
post-entry bar to satisfy the stop condition and no earlier bar satisfies
the stop or target condition, the verifier returns LOSS with
`bars_elapsed = k`; the scan terminates there — the bars after `k` are
arbitrary and do not affect the outcome. -/
theorem C4_first_stop_hit_is_loss_at_k (cfg : Config) (entry_time now : ℚ)
    (direction : String) (sl_price tp_price : ℚ) (pre : List Bar) (b : Bar)
    (rest : List Bar)
    (hwin : now - entry_time ≤ (cfg.VERIFICATION_WINDOW_BARS : ℚ))
    (htimes : ∀ x ∈ pre ++ b :: rest, entry_time < x.time)
    (hpre : ∀ p ∈ pre, stop_hit direction sl_price p = false ∧
      target_hit direction tp_price p = false)
    (hs : stop_hit direction sl_price b = true) :
    verify_trade_realtime cfg entry_time now direction sl_price tp_price
        (.ok (pre ++ b :: rest)) =
      ⟨"LOSS", some sl_price, pre.length + 1, -1, none⟩ := by
  unfold verify_trade_realtime
  dsimp only
  rw [if_neg (not_lt.mpr hwin)]
  rw [if_neg (by simp), filter_after_entry entry_time _ htimes, if_neg (by simp),
    scanBars_first_stop direction sl_price tp_price pre b rest 0 hpre hs]
  simp

theorem C2_same_bar_tie_breaks_to_loss_witness :
    verify_trade_realtime defaultConfig 0 10 "BUY" 2645 2660
        (.ok [⟨1, 2650, 2646, 2648⟩, ⟨2, 2652, 2648, 2650⟩, ⟨3, 2661, 2644, 2650⟩]) =
      ⟨"LOSS", some 2645, 3, -1, none⟩ :=
  C2_same_bar_tie_breaks_to_loss defaultConfig 0 10 "BUY" 2645 2660
    [⟨1, 2650, 2646, 2648⟩, ⟨2, 2652, 2648, 2650⟩] ⟨3, 2661, 2644, 2650⟩ []
    (by norm_num [defaultConfig])
    (by intro x hx; fin_cases hx <;> norm_num)
    (by intro p hp; fin_cases hp <;> constructor <;> norm_num [stop_hit, target_hit])
    (by norm_num [stop_hit]) (by norm_num [target_hit])

theorem C4_first_stop_hit_is_loss_at_k_witness :
    verify_trade_realtime defaultConfig 0 10 "SELL" 2655 2640
        (.ok [⟨1, 2651, 2646, 2648⟩, ⟨2, 2656, 2648, 2652⟩, ⟨3, 2700, 2600, 2650⟩]) =
      ⟨"LOSS", some 2655, 2, -1, none⟩ :=
  C4_first_stop_hit_is_loss_at_k defaultConfig 0 10 "SELL" 2655 2640
    [⟨1, 2651, 2646, 2648⟩] ⟨2, 2656, 2648, 2652⟩ [⟨3, 2700, 2600, 2650⟩]
    (by norm_num [defaultConfig])
    (by intro x hx; fin_cases hx <;> norm_num)
    (by intro p hp; fin_cases hp <;> refine ⟨?_, ?_⟩ <;> simp [stop_hit, target_hit] <;>
      norm_num)
    (by simp [stop_hit]; norm_num)

/-- Every outcome of the scan loop carries the rr fixed by its result:
WIN → 2.0 (a literal in the source), LOSS → −1.0, PENDING → 0. -/
lemma scanBars_rr_cases (direction : String) (sl_price tp_price : ℚ)
    (l : List Bar) (n : ℕ) :
    ((scanBars direction sl_price tp_price l n).result = "WIN" ∧
      (scanBars direction sl_price tp_price l n).rr = 2) ∨
    ((scanBars direction sl_price tp_price l n).result = "LOSS" ∧
      (scanBars direction sl_price tp_price l n).rr = -1) ∨
    ((scanBars direction sl_price tp_price l n).result = "PENDING" ∧
      (scanBars direction sl_price tp_price l n).rr = 0) := by
  induction l generalizing n with
  | nil => right; right; exact ⟨rfl, rfl⟩
  | cons b rest ih =>
    simp only [scanBars]
    split
    · split
      · split
        · right; left; exact ⟨rfl, rfl⟩
        · right; left; exact ⟨rfl, rfl⟩
      · split
        · left; exact ⟨rfl, rfl⟩
        · exact ih (n + 1)
    · split
      · split
        · right; left; exact ⟨rfl, rfl⟩
        · right; left; exact ⟨rfl, rfl⟩
      · split
        · left; exact ⟨rfl, rfl⟩
        · exact ih (n + 1)

/-- C3 (amended): the verifier's rr is a function of the result alone:
2.0 on WIN (a hardcoded literal equal to the default `RR_TARGET = 2.0`,
but not read from configuration), −1.0 on LOSS, and 0 on every other
result (EXPIRED, PENDING, ERROR). -/
theorem C3_amended_rr_by_result (cfg : Config) (entry_time now : ℚ)
    (direction : String) (sl_price tp_price : ℚ) (fetch : BarFetch) :
    (verify_trade_realtime cfg entry_time now direction sl_price tp_price fetch).rr =
      (if (verify_trade_realtime cfg entry_time now direction sl_price tp_price
            fetch).result = "WIN" then 2
       else if (verify_trade_realtime cfg entry_time now direction sl_price tp_price
            fetch).result = "LOSS" then -1
       else 0) := by
  unfold verify_trade_realtime
  dsimp only
  split
  · rfl
  · split
    · rfl
    · rename_i df
      split
      · rfl
      · split
        · rfl
        · rcases scanBars_rr_cases direction sl_price tp_price
            (df.filter (fun b => decide (entry_time < b.time))) 0 with
            ⟨h1, h2⟩ | ⟨h1, h2⟩ | ⟨h1, h2⟩ <;> rw [h1, h2] <;> rfl

/-- C3 counterexample: with `RR_TARGET` configured to 3.0, a WIN still
carries rr = 2.0 (the hardcoded literal), not the configured reward
multiple — refuting the claim that rr on WIN equals the plan's `RR_TARGET`
configuration. -/
theorem C3_counterexample :
    rr3Config.RR_TARGET = 3 ∧
    (verify_trade_realtime rr3Config 0 10 "BUY" 2645 2660
        (.ok [⟨1, 2661, 2650, 2655⟩])).result = "WIN" ∧
    (verify_trade_realtime rr3Config 0 10 "BUY" 2645 2660
        (.ok [⟨1, 2661, 2650, 2655⟩])).rr = 2 ∧
    ¬ ((verify_trade_realtime rr3Config 0 10 "BUY" 2645 2660
        (.ok [⟨1, 2661, 2650, 2655⟩])).rr = rr3Config.RR_TARGET) := by
  have hv : verify_trade_realtime rr3Config 0 10 "BUY" 2645 2660
      (.ok [⟨1, 2661, 2650, 2655⟩]) = ⟨"WIN", some 2660, 1, 2, none⟩ := by
    simp [verify_trade_realtime, scanBars, rr3Config, defaultConfig]
    norm_num
  refine ⟨rfl, by rw [hv], by rw [hv], by rw [hv]; norm_num [rr3Config, defaultConfig]⟩

/-- C10: when the technical verdict is NEUTRAL (score strictly between the
thresholds), the confidence is `base + sell_count * half_weight`, clamped
to `[30, cap]` — the `aligned_count` fallback picks the SELL-voting module
list whenever the technical verdict is not BUY, so SELL votes raise the
confidence of a NEUTRAL result while BUY votes do not enter it; no macro
adjustment applies because the final verdict stays NEUTRAL. -/
theorem C10_neutral_confidence_counts_sell_votes (cfg : AggCfg)
    (verdicts : List (String × String)) (macro_verdict : String)
    (h1 : (aggScan cfg.weights verdicts).1 < cfg.buy_threshold)
    (h2 : cfg.sell_threshold < (aggScan cfg.weights verdicts).1) :
    (aggregate_verdicts_with_macro_gate cfg verdicts macro_verdict).final_verdict =
      "NEUTRAL" ∧
    (aggregate_verdicts_with_macro_gate cfg verdicts macro_verdict).confidence =
      max (min (cfg.conf.base +
          ((aggScan cfg.weights verdicts).2.2.length : ℤ) * cfg.conf.half_weight)
        cfg.conf.cap) 30 := by
  unfold aggregate_verdicts_with_macro_gate
  dsimp only
  rw [if_neg (not_le.mpr h1), if_neg (not_le.mpr h2),
    if_neg (by simp : ¬ (("NEUTRAL" = "BUY") ∧ macro_verdict = "SELL")),
    if_neg (by simp : ¬ (("NEUTRAL" = "SELL") ∧ macro_verdict = "BUY"))]
  dsimp only
  rw [if_neg (by simp : ¬ ("NEUTRAL" = "BUY")),
    if_neg (by simp : ¬ ¬ (("NEUTRAL" : String) = "NEUTRAL"))]
  exact ⟨rfl, rfl⟩

theorem C10_neutral_confidence_counts_sell_votes_witness :
    (aggregate_verdicts_with_macro_gate defaultAggCfg [("trend", "SELL")]
      "NEUTRAL").final_verdict = "NEUTRAL" ∧
    (aggregate_verdicts_with_macro_gate defaultAggCfg [("trend", "SELL")]
      "NEUTRAL").confidence = 55 :=
  C10_neutral_confidence_counts_sell_votes defaultAggCfg [("trend", "SELL")] "NEUTRAL"
    (by simp [aggScan, weightOf, score_map, defaultAggCfg, defaultWeights] <;> norm_num)
    (by simp [aggScan, weightOf, score_map, defaultAggCfg, defaultWeights] <;> norm_num)

/-- When the trade result is neither WIN nor LOSS, one grading-loop
iteration either increments exactly the neutral counter of the named
module (verdict NEUTRAL) or leaves the row unchanged. -/
lemma gradeOne_frame (dir res : String) (rr : ℚ) (st : CouncilState)
    (mv : String × String) (h1 : ¬ res = "WIN") (h2 : ¬ res = "LOSS")
    (m : String) :
    (gradeOne dir res rr st mv) m =
      if m = mv.1 ∧ mv.2 = "NEUTRAL" then
        { st m with neutral := (st m).neutral + 1 }
      else st m := by
  unfold gradeOne
  dsimp only
  by_cases hm : m = mv.1
  · rw [if_pos hm]
    by_cases hn : mv.2 = "NEUTRAL"
    · rw [if_pos hn, if_pos ⟨hm, hn⟩]
    · rw [if_neg hn]
      by_cases ha : mv.2 = dir
      · rw [if_neg (show ¬ ¬ (mv.2 = dir) from fun hc => hc ha), if_neg h1, if_neg h2,
          if_neg (show ¬ (m = mv.1 ∧ mv.2 = "NEUTRAL") from fun hc => hn hc.2)]
      · rw [if_pos (show ¬ (mv.2 = dir) from ha),
          if_neg (show ¬ (m = mv.1 ∧ mv.2 = "NEUTRAL") from fun hc => hn hc.2)]
  · rw [if_neg hm, if_neg (show ¬ (m = mv.1 ∧ mv.2 = "NEUTRAL") from fun hc => hm hc.1)]

/-- Folding the grading loop over the verdict dict, for a result that is
neither WIN nor LOSS: only neutral counters move, by the number of
`(module, NEUTRAL)` occurrences. -/
lemma foldGrade_frame (dir res : String) (rr : ℚ)
    (h1 : ¬ res = "WIN") (h2 : ¬ res = "LOSS") :
    ∀ (verdicts : List (String × String)) (st : CouncilState) (m : String),
      (verdicts.foldl (gradeOne dir res rr) st) m =
        { st m with neutral := (st m).neutral +
            verdicts.countP (fun mv => decide (m = mv.1 ∧ mv.2 = "NEUTRAL")) } := by
  intro verdicts
  induction verdicts with
  | nil => intro st m; simp
  | cons mv rest ih =>
    intro st m
    rw [List.foldl_cons, ih (gradeOne dir res rr st mv) m,
      gradeOne_frame dir res rr st mv h1 h2 m]
    by_cases hc : m = mv.1 ∧ mv.2 = "NEUTRAL"
    · rw [if_pos hc]
      simp [List.countP_cons, hc.1, hc.2] <;> omega
    · rw [if_neg hc]
      simp [List.countP_cons, hc]

/-- C9: when `grade_council` is called with a result that is neither WIN
nor LOSS (e.g. EXPIRED), every module's correct, incorrect, total_r and
trade_count are unchanged; the neutral counter is incremented exactly for
the modules whose verdict is NEUTRAL; and for a row whose stored
accuracy/expectancy already agree with the recomputation from its
counters, the final recomputation leaves those values equal — the row is
unchanged apart from its neutral counter. -/
theorem C9_non_win_loss_is_neutral_frame (verdicts : List (String × String))
    (dir res : String) (rr : ℚ) (st : CouncilState) (m : String)
    (h1 : ¬ res = "WIN") (h2 : ¬ res = "LOSS")
    (hcons : rowConsistent (st m)) :
    (grade_council verdicts dir res rr st) m =
      { st m with neutral := (st m).neutral +
          verdicts.countP (fun mv => decide (m = mv.1 ∧ mv.2 = "NEUTRAL")) } := by
  obtain ⟨ha, he⟩ := hcons
  unfold recomputeRow at ha he
  dsimp only at ha he
  unfold grade_council
  dsimp only
  rw [foldGrade_frame dir res rr h1 h2 verdicts st m]
  unfold recomputeRow
  dsimp only
  rw [← ha, ← he]

theorem C9_non_win_loss_is_neutral_frame_witness :
    (grade_council [("trend", "NEUTRAL"), ("rsi", "BUY")] "BUY" "EXPIRED" 0
      (fun _ => initRow)) "trend" =
      { initRow with neutral := initRow.neutral + 1 } :=
  C9_non_win_loss_is_neutral_frame [("trend", "NEUTRAL"), ("rsi", "BUY")] "BUY"
    "EXPIRED" 0 (fun _ => initRow) "trend" (by decide) (by decide)
    (by norm_num [rowConsistent, recomputeRow, initRow, round1, round2, roundHalfEvenZ])

/-- `recomputeRow` writes exactly the recomputed accuracy/expectancy, so
its output is always consistent. -/
lemma recomputeRow_consistent (row : CouncilRow) :
    rowConsistent (recomputeRow row) :=
  ⟨rfl, rfl⟩

lemma initRow_consistent : rowConsistent initRow := by
  norm_num [rowConsistent, recomputeRow, initRow, round1, round2, roundHalfEvenZ]

lemma recomputeRow_correct (row : CouncilRow) :
    (recomputeRow row).correct = row.correct := rfl

lemma recomputeRow_incorrect (row : CouncilRow) :
    (recomputeRow row).incorrect = row.incorrect := rfl

/-- One `grade_council` call with a single entry whose verdict equals the
trade direction (non-NEUTRAL): the module's row gets the WIN/LOSS
increment and is then recomputed. -/
lemma grade_single_at (m dir res : String) (rr : ℚ) (st : CouncilState)
    (hdir : ¬ dir = "NEUTRAL") :
    (grade_council [(m, dir)] dir res rr st) m =
      recomputeRow
        (if res = "WIN" then
          { st m with correct := (st m).correct + 1,
                      total_r := (st m).total_r + rr,
                      trade_count := (st m).trade_count + 1 }
        else if res = "LOSS" then
          { st m with incorrect := (st m).incorrect + 1,
                      total_r := (st m).total_r + rr,
                      trade_count := (st m).trade_count + 1 }
        else st m) := by
  unfold grade_council
  dsimp only [List.foldl]
  unfold gradeOne
  dsimp only
  rw [if_pos rfl, if_neg hdir, if_neg (show ¬ ¬ (dir = dir) from fun hc => hc rfl)]

/-- Counter bookkeeping over a sequence of aligned single-module gradings
whose results are all WIN or LOSS: correct counts the WINs, incorrect the
LOSSes, and the resulting row is consistent. -/
lemma foldCalls_spec (m dir : String) (hdir : ¬ dir = "NEUTRAL") :
    ∀ (calls : List (String × ℚ)) (st : CouncilState),
      (∀ c ∈ calls, c.1 = "WIN" ∨ c.1 = "LOSS") →
      (((calls.foldl (fun s c => grade_council [(m, dir)] dir c.1 c.2 s) st) m).correct =
          (st m).correct + calls.countP (fun c => decide (c.1 = "WIN")) ∧
        ((calls.foldl (fun s c => grade_council [(m, dir)] dir c.1 c.2 s) st) m).incorrect =
          (st m).incorrect + calls.countP (fun c => decide (c.1 = "LOSS"))) ∧
      (rowConsistent (st m) →
        rowConsistent ((calls.foldl (fun s c => grade_council [(m, dir)] dir c.1 c.2 s) st) m)) := by
  intro calls
  induction calls with
  | nil => exact fun st hall => ⟨⟨by simp, by simp⟩, fun h => h⟩
  | cons c cs ih =>
    intro st hall
    rw [List.foldl_cons]
    obtain ⟨⟨hc', hi'⟩, hcons'⟩ :=
      ih (grade_council [(m, dir)] dir c.1 c.2 st)
        (fun d hd => hall d (List.mem_cons_of_mem c hd))
    have hst1 := grade_single_at m dir c.1 c.2 st hdir
    have hconsStep : rowConsistent ((grade_council [(m, dir)] dir c.1 c.2 st) m) := by
      rw [hst1]; exact recomputeRow_consistent _
    refine ⟨⟨?_, ?_⟩, fun _ => hcons' hconsStep⟩
    · rw [hc', hst1]
      rcases hall c (List.mem_cons_self c cs) with hw | hl
      · rw [if_pos hw, recomputeRow_correct]
        simp [List.countP_cons, hw]
        omega
      · have hnw : ¬ c.1 = "WIN" := by rw [hl]; decide
        rw [if_neg hnw, if_pos hl, recomputeRow_correct]
        simp [List.countP_cons, hnw]
    · rw [hi', hst1]
      rcases hall c (List.mem_cons_self c cs) with hw | hl
      · have hnl : ¬ c.1 = "LOSS" := by rw [hw]; decide
        rw [if_pos hw, recomputeRow_incorrect]
        simp [List.countP_cons, hnl]
      · have hnw : ¬ c.1 = "WIN" := by rw [hl]; decide
        rw [if_neg hnw, if_pos hl, recomputeRow_incorrect]
        simp [List.countP_cons, hl]
        omega

/-- C6 (amended): starting from a fresh ledger, after a sequence of
single-module aligned gradings with N WINs and M LOSSes, the stored
accuracy equals `100 * N / (N + M)` rounded to one decimal place
(`round(accuracy, 1)` in the source; 0 when N + M = 0).  As stated the
claim ("equals 100*N/(N+M) exactly") fails whenever that quotient is not
representable to one decimal place, e.g. N = 1, M = 2. -/
theorem C6_amended_accuracy_rounded (m dir : String) (calls : List (String × ℚ))
    (hdir : ¬ dir = "NEUTRAL")
    (hall : ∀ c ∈ calls, c.1 = "WIN" ∨ c.1 = "LOSS") :
    ((gradeSequence m dir calls) m).accuracy =
      round1 (if 0 < calls.countP (fun c => decide (c.1 = "WIN")) +
            calls.countP (fun c => decide (c.1 = "LOSS")) then
          ((calls.countP (fun c => decide (c.1 = "WIN")) : ℚ) /
            ((calls.countP (fun c => decide (c.1 = "WIN")) +
              calls.countP (fun c => decide (c.1 = "LOSS")) : ℕ) : ℚ)) * 100
        else 0) := by
  obtain ⟨⟨hc, hi⟩, hcons⟩ := foldCalls_spec m dir hdir calls (fun _ => initRow) hall
  simp only [show initRow.correct = 0 from rfl, show initRow.incorrect = 0 from rfl,
    Nat.zero_add] at hc hi
  have hcons2 : rowConsistent ((gradeSequence m dir calls) m) :=
    hcons initRow_consistent
  rw [hcons2.1]
  unfold recomputeRow
  dsimp only
  unfold gradeSequence
  rw [hc, hi]

theorem C6_amended_accuracy_rounded_witness :
    ((gradeSequence "trend" "BUY" [("WIN", 2)]) "trend").accuracy =
      round1 (if 0 < [("WIN", (2:ℚ))].countP (fun c => decide (c.1 = "WIN")) +
            [("WIN", (2:ℚ))].countP (fun c => decide (c.1 = "LOSS")) then
          (([("WIN", (2:ℚ))].countP (fun c => decide (c.1 = "WIN")) : ℚ) /
            (([("WIN", (2:ℚ))].countP (fun c => decide (c.1 = "WIN")) +
              [("WIN", (2:ℚ))].countP (fun c => decide (c.1 = "LOSS")) : ℕ) : ℚ)) * 100
        else 0) :=
  C6_amended_accuracy_rounded "trend" "BUY" [("WIN", 2)] (by decide)
    (by intro c hc; fin_cases hc; left; rfl)

/-- C6 counterexample: one WIN-aligned and two LOSS-aligned gradings give
correct = 1, incorrect = 2, but the stored accuracy is the rounded 33.3,
not 100·1/(1+2) = 100/3 — the source stores `round(accuracy, 1)`, so the
claim's "exactly" fails whenever 100·N/(N+M) needs more than one decimal
place. -/
theorem C6_counterexample :
    ((gradeSequence "trend" "BUY" [("WIN", 2), ("LOSS", -1), ("LOSS", -1)]) "trend").correct
        = 1 ∧
    ((gradeSequence "trend" "BUY" [("WIN", 2), ("LOSS", -1), ("LOSS", -1)]) "trend").incorrect
        = 2 ∧
    ((gradeSequence "trend" "BUY" [("WIN", 2), ("LOSS", -1), ("LOSS", -1)]) "trend").accuracy
        = 333/10 ∧
    ¬ (((gradeSequence "trend" "BUY" [("WIN", 2), ("LOSS", -1), ("LOSS", -1)]) "trend").accuracy
        = (1 : ℚ) / (1 + 2) * 100) := by
  have hacc :
      ((gradeSequence "trend" "BUY" [("WIN", 2), ("LOSS", -1), ("LOSS", -1)]) "trend").accuracy
        = 333/10 := by
    simp [gradeSequence, grade_council, gradeOne, recomputeRow, initRow, round1,
      roundHalfEvenZ]
    norm_num [Int.fract]
  exact ⟨rfl, rfl, hacc, by rw [hacc]; norm_num⟩

/-- Adding a whole number of pips (hundredths) to an already-rounded price
is exact: no further rounding occurs. -/
lemma round2_add_pip (x : ℚ) (n : ℤ) :
    round2 (round2 x + (n : ℚ) * (1/100)) = round2 x + (n : ℚ) * (1/100) := by
  have h : round2 x + (n : ℚ) * (1/100) =
      ((roundHalfEvenZ (x * 100) + n : ℤ) : ℚ) / 100 := by
    unfold round2; push_cast; ring
  rw [h, round2_intDiv100]

lemma round2_sub_pip (x : ℚ) (n : ℤ) :
    round2 (round2 x - (n : ℚ) * (1/100)) = round2 x - (n : ℚ) * (1/100) := by
  have h := round2_add_pip x (-n)
  push_cast at h
  have e : round2 x - (n : ℚ) * (1/100) = round2 x + (-(n : ℚ)) * (1/100) := by ring
  rw [e]
  exact h

set_option maxRecDepth 4000 in
/-- C1 counterexample: with a tiny but positive ATR (0.001, well under one
pip) the planner still returns a plan, but the stop distance rounds to 0
pips, so the target price equals the entry price and the strict ordering
`entry < target` fails for BUY (the stop side still holds thanks to the
spread adjustment). -/
theorem C1_counterexample :
    create_trade_plan defaultConfig tinyRangeBars "BUY" 100 =
      some ⟨"BUY", 2000, 39999/20, 2000, 1/100, 0, 0, 2, 1, 0, 0, 0⟩ ∧
    ¬ ((2000 : ℚ) < 2000) := by
  constructor
  · have hatr : calculate_atr tinyRangeBars 14 = some (1/1000) := by
      norm_num [calculate_atr, trueRanges, tinyRangeBars, List.zip, List.zipWith,
        max_def, abs]
    unfold create_trade_plan
    rw [show tinyRangeBars.getLast? = some ⟨13, 2000 + 1/1000, 2000, 2000⟩ from rfl]
    dsimp only
    rw [show defaultConfig.ATR_PERIOD = 14 from rfl, hatr]
    dsimp only
    rw [if_neg (by norm_num : ¬ (1/1000 : ℚ) ≤ 0),
      if_pos (rfl : ("BUY" : String) = "BUY"),
      if_neg (by decide : ¬ defaultConfig.RISK_MODE = "LEVEL_STRICT")]
    norm_num [defaultConfig, round2, roundHalfEvenZ, Int.fract, calculate_lot_size]
  · norm_num

/-- C1 (amended): whenever the planner returns a plan whose stop distance
is at least one pip, the prices are strictly ordered as claimed (BUY:
stop < entry < target; SELL: target < entry < stop).  As stated the claim
fails: when the ATR is positive but small enough that the stop distance
rounds to 0 pips, the plan is still returned and target = entry. -/
theorem C1_amended_price_ordering (bars : List Bar) (direction : String)
    (balance : ℚ) (plan : TradePlan)
    (hplan : create_trade_plan defaultConfig bars direction balance = some plan)
    (hpips : 1 ≤ plan.stop_pips) :
    (direction = "BUY" → plan.sl < plan.entry ∧ plan.entry < plan.tp) ∧
    (¬ direction = "BUY" → plan.tp < plan.entry ∧ plan.entry < plan.sl) := by
  unfold create_trade_plan at hplan
  cases hlast : bars.getLast? with
  | none => rw [hlast] at hplan; exact absurd hplan (by simp)
  | some lastBar =>
    rw [hlast] at hplan
    cases hatr : calculate_atr bars defaultConfig.ATR_PERIOD with
    | none => rw [hatr] at hplan; exact absurd hplan (by simp)
    | some atr =>
      rw [hatr] at hplan
      dsimp only at hplan
      by_cases hneg : atr ≤ 0
      · rw [if_pos hneg] at hplan
        exact absurd hplan (by simp)
      · rw [if_neg hneg] at hplan
        have hp := Option.some.inj hplan
        subst hp
        simp only [show defaultConfig.PIP_SIZE = 1/100 from rfl,
          show defaultConfig.ASSUMED_SPREAD = 1/20 from rfl,
          show defaultConfig.RR_TARGET = 2 from rfl] at hpips ⊢
        have hs : (1 : ℚ) ≤
            ((roundHalfEvenZ (defaultConfig.ATR_MULTIPLIER * atr / (1/100))) : ℚ) := by
          exact_mod_cast hpips
        have ht : roundHalfEvenZ
              ((2 : ℚ) * ((roundHalfEvenZ (defaultConfig.ATR_MULTIPLIER * atr / (1/100))) : ℚ)) =
            2 * roundHalfEvenZ (defaultConfig.ATR_MULTIPLIER * atr / (1/100)) := by
          rw [show ((2 : ℚ) * ((roundHalfEvenZ (defaultConfig.ATR_MULTIPLIER * atr / (1/100))) : ℚ)) =
              (((2 * roundHalfEvenZ (defaultConfig.ATR_MULTIPLIER * atr / (1/100)) : ℤ)) : ℚ) from by
            push_cast; ring]
          exact roundHalfEvenZ_intCast _
        constructor
        · intro hd
          rw [if_pos hd]
          dsimp only
          rw [round2_sub_pip lastBar.close, round2_add_pip lastBar.close, ht]
          constructor
          · linarith
          · push_cast
            linarith
        · intro hd
          rw [if_neg hd]
          dsimp only
          rw [round2_add_pip lastBar.close, round2_sub_pip lastBar.close, ht]
          constructor
          · push_cast
            linarith
          · linarith

set_option maxRecDepth 4000 in
theorem C1_amended_price_ordering_witness :
    (("BUY" : String) = "BUY" → (52939/20 : ℚ) < 2650 ∧ (2650 : ℚ) < 2656) ∧
    (¬ ("BUY" : String) = "BUY" → (2656 : ℚ) < 2650 ∧ (2650 : ℚ) < 52939/20) := by
  have hplan : create_trade_plan defaultConfig normalBars "BUY" 100 =
      some ⟨"BUY", 2650, 52939/20, 2656, 1/100, 300, 600, 2, 1, 3, 6, 2⟩ := by
    have hatr : calculate_atr normalBars 14 = some 2 := by
      norm_num [calculate_atr, trueRanges, normalBars, List.zip, List.zipWith,
        max_def, abs]
    unfold create_trade_plan
    rw [show normalBars.getLast? = some ⟨13, 2651, 2649, 2650⟩ from rfl]
    dsimp only
    rw [show defaultConfig.ATR_PERIOD = 14 from rfl, hatr]
    dsimp only
    rw [if_neg (by norm_num : ¬ (2 : ℚ) ≤ 0),
      if_pos (rfl : ("BUY" : String) = "BUY"),
      if_neg (by decide : ¬ defaultConfig.RISK_MODE = "LEVEL_STRICT")]
    norm_num [defaultConfig, round2, roundHalfEvenZ, Int.fract, calculate_lot_size]
  exact C1_amended_price_ordering normalBars "BUY" 100
    ⟨"BUY", 2650, 52939/20, 2656, 1/100, 300, 600, 2, 1, 3, 6, 2⟩ hplan (by norm_num)
